import Mathlib

/-!
Shallow embedding of the session-lifecycle and state-synchronization core of
the VibeX client (src/MainApp.tsx and the App component in src/unnamed/part_001).

Remote calls are asynchronous in the source; each handler is embedded as a
pure function taking the remote call's result as an explicit argument and
returning the new client state together with the list of outward effects
(remote writes, alerts, scheduled logouts) the handler issues.
-/

namespace VibeX

/-- The authenticated user as seen by MainApp (`user: User`). -/
structure UserT where
  id : String
  username : String
deriving Repr, DecidableEq

/-- Session status field: the source writes only the strings `active` and `closed`. -/
inductive SessionStatus where
  | active
  | closed
deriving Repr, DecidableEq

/-- A row of the `sessions` table as cached by the client
(`sessions` state, rows returned by `select('*, creator:profiles(username)')`). -/
structure Session where
  id : Nat
  status : SessionStatus
  lat : Int
  lng : Int
  creator_id : String
  duration : Nat
  participants : List String
  creatorName : String
deriving Repr, DecidableEq

/-- A chat message as held in `chatMessages`: the `messages` row fields the
handlers use, plus the resolved `sender.username` display name. -/
structure VibeMessage where
  event_id : Nat
  sender_id : String
  text : String
  senderName : String
deriving Repr, DecidableEq

/-- Outward effects a MainApp handler can issue: remote writes against the
backend store, `alert(...)` calls, and the `setTimeout(() => onLogout(), 2000)`
scheduled logout. -/
inductive Effect where
  | alertUser (msg : String)
  | updateSessionStatus (sessionId : Nat) (status : SessionStatus)
  | updateSessionParticipants (sessionId : Nat) (ps : List String)
  | updateSessionDuration (sessionId : Nat) (d : Nat)
  | insertSession (lat lng : Int) (creatorId : String) (ps : List String)
  | insertMessage (eventId : Nat) (senderId : String) (text : String)
  | scheduleLogoutMs (delay : Nat)
deriving Repr, DecidableEq

/-- Local MainApp state touched by the embedded handlers (`useState` cells). -/
structure ClientState where
  user : UserT
  sessions : List Session
  activeSession : Option Session
  isChatVisible : Bool
  chatMessages : List VibeMessage
  errorBanner : Option String
  sessionValid : Bool
  isCreateMode : Bool
  isCreateModalOpen : Bool
  newEventCoords : Option (Int × Int)
deriving Repr, DecidableEq

/-- `pat` occurs as a contiguous prefix of `l`. -/
def charsHavePref : List Char → List Char → Bool
  | [], _ => true
  | _ :: _, [] => false
  | p :: ps, c :: cs => p == c && charsHavePref ps cs

/-- `pat` occurs as a contiguous sublist of `l`. -/
def charsContain (pat : List Char) : List Char → Bool
  | [] => charsHavePref pat []
  | c :: cs => charsHavePref pat (c :: cs) || charsContain pat cs

/-- JavaScript `s.includes(pat)`: substring containment. -/
def messageIncludes (s pat : String) : Bool :=
  charsContain pat.data s.data

/-- The error classification every MainApp call site repeats:
`error.message.includes('JWT') || error.message.includes('session')`. -/
def isAuthError (msg : String) : Bool :=
  messageIncludes msg "JWT" || messageIncludes msg "session"

/-- The repeated remote-error handling block: on an auth-classified message,
set the "Session expired" banner and schedule `onLogout` after 2000 ms;
otherwise set the call site's fallback banner when it has one (fetchSessions,
handleCreateSession) and do nothing more (all other call sites). -/
def applyRemoteError (st : ClientState) (msg : String) (fallback : Option String) :
    ClientState × List Effect :=
  if isAuthError msg then
    ({ st with errorBanner := some "Session expired. Please log in again." },
     [Effect.scheduleLogoutMs 2000])
  else
    match fallback with
    | some fb => ({ st with errorBanner := some fb }, [])
    | none => (st, [])

/-- `fetchSessions` (MainApp sessions effect): reloads the active-session set;
on success replaces the whole local set and clears the banner. -/
def fetchSessions (st : ClientState) (remote : Except String (List Session)) :
    ClientState × List Effect :=
  if st.sessionValid = false then (st, [])
  else
    match remote with
    | .error msg => applyRemoteError st msg (some "Failed to load sessions. Please refresh the page.")
    | .ok data => ({ st with sessions := data, errorBanner := none }, [])

/-- `handleMapClickInCreateMode`: the entry point of the create flow. With an
active session held it alerts and aborts (leaving create mode); otherwise it
records the coordinates and opens the create modal. -/
def handleMapClickInCreateMode (st : ClientState) (coords : Int × Int) :
    ClientState × List Effect :=
  match st.activeSession with
  | some _ =>
      ({ st with isCreateMode := false },
       [Effect.alertUser "You are already in a session. Leave or close your current session to create a new one."])
  | none =>
      ({ st with newEventCoords := some coords, isCreateModalOpen := true }, [])

/-- The non-derived fields of the create form (`sessionData`): the handlers
only ever read `duration` from cached rows, so that is the field modelled. -/
structure SessionFormData where
  duration : Nat
deriving Repr, DecidableEq

/-- `handleCreateSession`: requires recorded coordinates and a valid auth
session; inserts a new active session with the actor as creator and sole
participant; on success the returned row becomes the active session and the
modal state is reset. -/
def handleCreateSession (st : ClientState) (_formData : SessionFormData)
    (remote : Except String Session) : ClientState × List Effect :=
  match st.newEventCoords with
  | none => (st, [])
  | some coords =>
    if st.sessionValid = false then (st, [])
    else
      let insertEff := Effect.insertSession coords.1 coords.2 st.user.id [st.user.id]
      match remote with
      | .error msg =>
          let r := applyRemoteError st msg (some "Failed to create session. Please try again.")
          (r.1, insertEff :: r.2)
      | .ok newSession =>
          ({ st with activeSession := some newSession, isCreateModalOpen := false,
                     newEventCoords := none, isCreateMode := false, errorBanner := none },
           [insertEff])

/-- `handleCloseSession`: writes status=closed for the given id; on success
clears the active reference and hides chat only when the closed id equals the
active session's id. -/
def handleCloseSession (st : ClientState) (sessionId : Nat) (remote : Option String) :
    ClientState × List Effect :=
  if st.sessionValid = false then (st, [])
  else
    let writeEff := Effect.updateSessionStatus sessionId SessionStatus.closed
    match remote with
    | some msg =>
        let r := applyRemoteError st msg none
        (r.1, writeEff :: r.2)
    | none =>
        match st.activeSession with
        | some s =>
            if s.id == sessionId then
              ({ st with activeSession := none, isChatVisible := false }, [writeEff])
            else (st, [writeEff])
        | none => (st, [writeEff])

/-- `handleExtendSession`: looks the session up in the locally-cached set; when
absent it is a no-op; otherwise writes the cached duration plus 15. -/
def handleExtendSession (st : ClientState) (sessionId : Nat) (remote : Option String) :
    ClientState × List Effect :=
  if st.sessionValid = false then (st, [])
  else
    match st.sessions.find? (fun s => s.id == sessionId) with
    | none => (st, [])
    | some session =>
        let writeEff := Effect.updateSessionDuration sessionId (session.duration + 15)
        match remote with
        | some msg =>
            let r := applyRemoteError st msg none
            (r.1, writeEff :: r.2)
        | none => (st, [writeEff])

/-- The participants list `handleJoinSession` writes:
`[...session.participants, user.id]` — an unconditional append. -/
def joinParticipants (participants : List String) (uid : String) : List String :=
  participants ++ [uid]

/-- The participants list `handleLeaveSession` writes:
`session.participants.filter(p => p !== user.id)`. -/
def leaveParticipants (participants : List String) (uid : String) : List String :=
  participants.filter (fun p => p != uid)

/-- `handleJoinSession`: alerts and aborts when an active session is already
held; otherwise looks the session up in the cache, writes the appended
participants list, and on success the returned row becomes the active session. -/
def handleJoinSession (st : ClientState) (sessionId : Nat)
    (remote : Except String Session) : ClientState × List Effect :=
  if st.sessionValid = false then (st, [])
  else
    match st.activeSession with
    | some _ =>
        (st, [Effect.alertUser "You're already in a session. Please leave it before joining another."])
    | none =>
        match st.sessions.find? (fun s => s.id == sessionId) with
        | none => (st, [])
        | some session =>
            let writeEff := Effect.updateSessionParticipants sessionId
              (joinParticipants session.participants st.user.id)
            match remote with
            | .error msg =>
                let r := applyRemoteError st msg none
                (r.1, writeEff :: r.2)
            | .ok data => ({ st with activeSession := some data }, [writeEff])

/-- `handleLeaveSession`: looks the session up in the cache, writes the
filtered participants list, and on success unconditionally clears the active
reference and hides chat. -/
def handleLeaveSession (st : ClientState) (sessionId : Nat) (remote : Option String) :
    ClientState × List Effect :=
  if st.sessionValid = false then (st, [])
  else
    match st.sessions.find? (fun s => s.id == sessionId) with
    | none => (st, [])
    | some session =>
        let writeEff := Effect.updateSessionParticipants sessionId
          (leaveParticipants session.participants st.user.id)
        match remote with
        | some msg =>
            let r := applyRemoteError st msg none
            (r.1, writeEff :: r.2)
        | none =>
            ({ st with activeSession := none, isChatVisible := false }, [writeEff])

/-- `handleSendMessage`: requires an active session and a valid auth session;
issues only the remote insert, never touching `chatMessages`. -/
def handleSendMessage (st : ClientState) (text : String) (remote : Option String) :
    ClientState × List Effect :=
  match st.activeSession with
  | none => (st, [])
  | some active =>
    if st.sessionValid = false then (st, [])
    else
      let insertEff := Effect.insertMessage active.id st.user.id text
      match remote with
      | some msg =>
          let r := applyRemoteError st msg none
          (r.1, insertEff :: r.2)
      | none => (st, [insertEff])

/-- The `payload.new` row delivered by a live INSERT event on `messages`. -/
structure MessagePayload where
  event_id : Nat
  sender_id : String
  text : String
deriving Repr, DecidableEq

/-- How the live-feed handler resolves the sender's display name: the looked-up
`profiles.username` on success, the sentinel "Unknown" on lookup failure. -/
def resolvedMessage (payload : MessagePayload) (lookup : Except String String) : VibeMessage :=
  match lookup with
  | .error _ =>
      { event_id := payload.event_id, sender_id := payload.sender_id,
        text := payload.text, senderName := "Unknown" }
  | .ok username =>
      { event_id := payload.event_id, sender_id := payload.sender_id,
        text := payload.text, senderName := username }

/-- The live-feed INSERT callback of the messages subscription: appends the
resolved message to the end of the local list in both lookup outcomes. -/
def onMessageInsert (st : ClientState) (payload : MessagePayload)
    (lookup : Except String String) : ClientState :=
  { st with chatMessages := st.chatMessages ++ [resolvedMessage payload lookup] }

/-- The user carried by the backend's authoritative auth session
(`session.user` from `supabase.auth.getSession()`); only `id` is compared. -/
structure AuthUser where
  id : String
deriving Repr, DecidableEq

/-- Local auth state of the App component: the held identity. -/
structure AuthState where
  currentUser : Option AuthUser
deriving Repr, DecidableEq

/-- Outward effects of the App component's auth paths: `alert(...)`,
`supabase.auth.signOut()`, the two storage clears, the hard navigation to `/`,
and `window.location.reload()`. -/
inductive AuthEffect where
  | alertUser (msg : String)
  | signOut
  | clearLocalStorage
  | clearSessionStorage
  | navigateToRoot
  | reload
deriving Repr, DecidableEq

/-- `handleLogout` composed with the identity-clearing reaction: signs out
remotely and clears both storages; on a sign-out failure it additionally
forces a hard navigation to `/`. The held identity ends absent either way —
via the SIGNED_OUT auth-state event on success, via the navigation reset on
failure. -/
def handleLogout (st : AuthState) (signOutError : Option String) :
    AuthState × List AuthEffect :=
  match signOutError with
  | none =>
      ({ st with currentUser := none },
       [AuthEffect.signOut, AuthEffect.clearLocalStorage, AuthEffect.clearSessionStorage])
  | some _ =>
      ({ st with currentUser := none },
       [AuthEffect.signOut, AuthEffect.clearLocalStorage, AuthEffect.clearSessionStorage,
        AuthEffect.navigateToRoot])

/-- The zombie-session condition of `handleVisibilityChange`:
`error || !session || session.user.id !== currentUser.id`. -/
def sessionMismatch (remote : Except String (Option AuthUser)) (u : AuthUser) : Bool :=
  match remote with
  | .error _ => true
  | .ok none => true
  | .ok (some su) => su.id != u.id

/-- `handleVisibilityChange`: runs only when the document became visible and an
identity is held; re-queries the authoritative session and, on mismatch,
alerts and runs the forced logout; otherwise changes nothing. -/
def handleVisibilityChange (st : AuthState) (visible : Bool)
    (remote : Except String (Option AuthUser)) (signOutError : Option String) :
    AuthState × List AuthEffect :=
  if visible = false then (st, [])
  else
    match st.currentUser with
    | none => (st, [])
    | some u =>
      if sessionMismatch remote u then
        let r := handleLogout st signOutError
        (r.1,
         AuthEffect.alertUser "Your session has expired or is invalid. The application will now refresh. Please log in again." :: r.2)
      else (st, [])

/-- State of the startup deadlock guard: whether initialization is still
loading, the milliseconds left on the armed timeout (absent once cleared or
fired), and how many times the guard has fired. -/
structure GuardState where
  loading : Bool
  timer : Option Nat
  fired : Nat
deriving Repr, DecidableEq

/-- The loading effect arms the guard with a 10000 ms timeout. -/
def guardInit : GuardState :=
  { loading := true, timer := some 10000, fired := 0 }

/-- Events driving the guard: one millisecond of real time passing, and the
initialization completing (`setLoading(false)`, whose effect cleanup clears
the pending timeout). -/
inductive GuardEvent where
  | elapseMs
  | loadComplete
deriving Repr, DecidableEq

/-- What the guard does when it fires: alert, clear both storages, reload. -/
def guardFireEffects : List AuthEffect :=
  [AuthEffect.alertUser "Application is taking a while to load. We'll perform a quick refresh to resolve any potential issues.",
   AuthEffect.clearLocalStorage, AuthEffect.clearSessionStorage, AuthEffect.reload]

/-- One step of the deadlock guard. A `loadComplete` clears the timeout; an
elapsed millisecond counts the armed timer down, firing once it reaches zero. -/
def guardStep (st : GuardState) (e : GuardEvent) : GuardState × List AuthEffect :=
  match e with
  | .loadComplete => ({ st with loading := false, timer := none }, [])
  | .elapseMs =>
      match st.timer with
      | none => (st, [])
      | some n =>
          if n ≤ 1 then
            ({ st with timer := none, fired := st.fired + 1 }, guardFireEffects)
          else
            ({ st with timer := some (n - 1) }, [])

/-- Run the guard over a sequence of events, accumulating effects. -/
def guardRun (st : GuardState) : List GuardEvent → GuardState × List AuthEffect
  | [] => (st, [])
  | e :: es =>
      let r := guardStep st e
      let rest := guardRun r.1 es
      (rest.1, r.2 ++ rest.2)

/-- A join or leave on a session's roster, as the lifecycle handlers write it. -/
inductive RosterOp where
  | join (uid : String)
  | leave (uid : String)
deriving Repr, DecidableEq

/-- Apply one roster operation the way the corresponding handler computes the
written participants list. -/
def applyOp (ps : List String) : RosterOp → List String
  | .join u => joinParticipants ps u
  | .leave u => leaveParticipants ps u

/-- Apply a sequence of roster operations. -/
def applyOps (ps : List String) : List RosterOp → List String
  | [] => ps
  | op :: ops => applyOps (applyOp ps op) ops

/-- A sequence of roster operations in which every join is performed by an
actor whose id is not in the roster at that point. -/
def safeOps : List String → List RosterOp → Prop
  | _, [] => True
  | ps, .join u :: ops => u ∉ ps ∧ safeOps (joinParticipants ps u) ops
  | ps, .leave u :: ops => safeOps (leaveParticipants ps u) ops

/-- A concrete actor used by the concrete-state theorems below. -/
def aliceUser : UserT := { id := "u1", username := "alice" }

/-- A cached session row whose participants already contain the actor `u1`. -/
def dupSessionRow : Session :=
  { id := 1, status := SessionStatus.active, lat := 0, lng := 0, creator_id := "u1",
    duration := 30, participants := ["u1"], creatorName := "alice" }

/-- A client state in which `u1` holds no active-session reference while the
cached session with id 1 already lists `u1` among its participants. -/
def dupJoinState : ClientState :=
  { user := aliceUser, sessions := [dupSessionRow], activeSession := none,
    isChatVisible := false, chatMessages := [], errorBanner := none,
    sessionValid := true, isCreateMode := false, isCreateModalOpen := false,
    newEventCoords := none }

/-- The row the backend returns after the join write from `dupJoinState`:
participants set to the appended list. -/
def dupJoinedRow : Session := { dupSessionRow with participants := ["u1", "u1"] }

/-- A second cached session row, distinct from `dupSessionRow`, used to
contrast leave and close on a non-active session. -/
def otherSessionRow : Session :=
  { id := 2, status := SessionStatus.active, lat := 5, lng := 5, creator_id := "u9",
    duration := 60, participants := ["u9"], creatorName := "nina" }

/-- A client state where `u1` is active in session 1 while session 2 is also
in the cached set. -/
def twoSessionState : ClientState :=
  { user := aliceUser, sessions := [dupSessionRow, otherSessionRow],
    activeSession := some dupSessionRow, isChatVisible := true, chatMessages := [],
    errorBanner := none, sessionValid := true, isCreateMode := false,
    isCreateModalOpen := false, newEventCoords := none }

/-- A cached row with an arbitrarily large duration, showing `extend` writes
`duration + 15` with no cap. -/
def extendProbeRow (sessionId bound : Nat) : Session :=
  { id := sessionId, status := SessionStatus.active, lat := 0, lng := 0, creator_id := "u1",
    duration := bound + 1, participants := ["u1"], creatorName := "alice" }

/-- A client state whose cache holds only `extendProbeRow sessionId bound`. -/
def extendProbeState (sessionId bound : Nat) : ClientState :=
  { user := aliceUser, sessions := [extendProbeRow sessionId bound], activeSession := none,
    isChatVisible := false, chatMessages := [], errorBanner := none, sessionValid := true,
    isCreateMode := false, isCreateModalOpen := false, newEventCoords := none }

/-- Invariant of the deadlock guard: it has either not fired yet, or fired
exactly once with its timeout cleared. -/
def GuardInv (st : GuardState) : Prop :=
  st.fired = 0 ∨ (st.fired = 1 ∧ st.timer = none)

/-- An auth state holding the identity `u1`. -/
def mismatchAuthState : AuthState := { currentUser := some { id := "u1" } }

/-! ## Theorems -/

theorem joinParticipants_nodup {ps : List String} {u : String}
    (h : ps.Nodup) (hu : u ∉ ps) : (joinParticipants ps u).Nodup := by
  simp [joinParticipants, List.nodup_append, h, hu]

theorem leaveParticipants_nodup {ps : List String} (u : String) (h : ps.Nodup) :
    (leaveParticipants ps u).Nodup :=
  h.filter _

theorem safeOps_append_left {ps : List String} {pre suf : List RosterOp}
    (h : safeOps ps (pre ++ suf)) : safeOps ps pre := by
  induction pre generalizing ps with
  | nil => trivial
  | cons op ops ih =>
    cases op with
    | join u => exact ⟨h.1, ih h.2⟩
    | leave u => exact ih h

theorem applyOps_nodup {ps : List String} {ops : List RosterOp}
    (h : ps.Nodup) (hs : safeOps ps ops) : (applyOps ps ops).Nodup := by
  induction ops generalizing ps with
  | nil => exact h
  | cons op rest ih =>
    cases op with
    | join u => exact ih (joinParticipants_nodup h hs.1) hs.2
    | leave u => exact ih (leaveParticipants_nodup u h) hs

/-- Claim C1, counterexample: in the reachable state `dupJoinState` — actor
`u1` holds no local active-session reference while session 1's cached
participants already contain `u1` — `handleJoinSession` issues a remote write
whose participants list contains `u1` twice, and on success the local active
session carries that duplicated list: a join by an actor whose id is already
in the participants list does introduce a duplicate entry. -/
theorem C1_join_duplicate_counterexample :
    (handleJoinSession dupJoinState 1 (Except.ok dupJoinedRow)).2
      = [Effect.updateSessionParticipants 1 ["u1", "u1"]] ∧
    (handleJoinSession dupJoinState 1 (Except.ok dupJoinedRow)).1.activeSession
      = some dupJoinedRow ∧
    ¬ (["u1", "u1"] : List String).Nodup := by
  refine ⟨by decide, by decide, by decide⟩

/-- Claim C1, amended: join appends the actor's id to the cached participants
list unconditionally, so the no-duplicate invariant holds exactly for those
sequences of join/leave in which every join is performed by an actor whose id
is not in the participants list at that point (leave, a filter, needs no such
restriction); after every prefix of such a sequence the participants list
contains no repeated id. -/
theorem C1_amended_no_duplicate_membership (ps : List String) (ops : List RosterOp)
    (h0 : ps.Nodup) (hs : safeOps ps ops) :
    ∀ pre suf, ops = pre ++ suf → (applyOps ps pre).Nodup := by
  intro pre suf hsplit
  exact applyOps_nodup h0 (safeOps_append_left (hsplit ▸ hs))

/-- Witness for the amended C1 theorem at a concrete roster and sequence. -/
theorem C1_amended_witness :
    (["a"] : List String).Nodup ∧
    safeOps ["a"] [RosterOp.join "b", RosterOp.leave "a"] ∧
    (applyOps ["a"] [RosterOp.join "b"]).Nodup := by
  refine ⟨by decide, ⟨by decide, trivial⟩, ?_⟩
  exact C1_amended_no_duplicate_membership ["a"] [RosterOp.join "b", RosterOp.leave "a"]
    (by decide) ⟨by decide, trivial⟩ [RosterOp.join "b"] [RosterOp.leave "a"] rfl

/-- Claim C7: on a live insert event whose sender profile lookup fails, the
message is still appended to the end of the local list with the sentinel
display name "Unknown"; in both lookup outcomes exactly one message is
appended, so a failed lookup never prevents the append. -/
theorem C7_lookup_failure_appends_unknown :
    (∀ (st : ClientState) (payload : MessagePayload) (err : String),
      (onMessageInsert st payload (Except.error err)).chatMessages
        = st.chatMessages ++
          [{ event_id := payload.event_id, sender_id := payload.sender_id,
             text := payload.text, senderName := "Unknown" }]) ∧
    (∀ (st : ClientState) (payload : MessagePayload) (lookup : Except String String),
      (onMessageInsert st payload lookup).chatMessages.length
        = st.chatMessages.length + 1) := by
  constructor
  · intro st payload err
    rfl
  · intro st payload lookup
    simp [onMessageInsert]

/-- Claim C6: `handleSendMessage` never modifies the local message list in any
state and for any remote outcome — it issues only the remote insert tied to
the active session — while each live-feed insert event appends exactly one
resolved message; hence the sender observes a sent message locally only via
the feed echo, once per delivered event. -/
theorem C6_send_message_not_optimistic :
    (∀ (st : ClientState) (text : String) (remote : Option String),
      (handleSendMessage st text remote).1.chatMessages = st.chatMessages) ∧
    (∀ (st : ClientState) (text : String) (act : Session),
      st.sessionValid = true → st.activeSession = some act →
      (handleSendMessage st text none).2 = [Effect.insertMessage act.id st.user.id text]) ∧
    (∀ (st : ClientState) (payload : MessagePayload) (lookup : Except String String),
      (onMessageInsert st payload lookup).chatMessages
        = st.chatMessages ++ [resolvedMessage payload lookup]) := by
  refine ⟨?_, ?_, ?_⟩
  · intro st text remote
    unfold handleSendMessage applyRemoteError
    (cases st.activeSession <;> cases hv : st.sessionValid <;> cases remote <;> simp)
    split <;> simp
  · intro st text act hv hact
    unfold handleSendMessage
    rw [hact, hv]
    simp
  · intro st payload lookup
    rfl

/-- Witness for C6 at a concrete state holding an active session. -/
theorem C6_witness :
    dupJoinState.sessionValid = true ∧
    ({ dupJoinState with activeSession := some dupSessionRow } : ClientState).activeSession
      = some dupSessionRow ∧
    (handleSendMessage { dupJoinState with activeSession := some dupSessionRow } "hi" none).2
      = [Effect.insertMessage dupSessionRow.id "u1" "hi"] := by
  refine ⟨by decide, by decide, ?_⟩
  exact C6_send_message_not_optimistic.2.1
    { dupJoinState with activeSession := some dupSessionRow } "hi" dupSessionRow
    (by decide) (by decide)

/-- Claim C2: with a local active-session reference held, the create flow's
entry point alerts and records no coordinates (so the subsequent create submit
issues no remote insert and leaves the reference unchanged) and join alerts
without issuing any remote update, leaving the state unchanged; with no such
reference, map click records the coordinates and opens the modal, create
issues the remote insert and adopts the returned row, and join issues the
participants write. -/
theorem C2_already_in_session (st : ClientState) (hval : st.sessionValid = true) :
    ((∀ S, st.activeSession = some S →
      (∀ coords,
        (handleMapClickInCreateMode st coords).1.activeSession = st.activeSession ∧
        (handleMapClickInCreateMode st coords).1.newEventCoords = st.newEventCoords ∧
        (handleMapClickInCreateMode st coords).1.isCreateModalOpen = st.isCreateModalOpen ∧
        (handleMapClickInCreateMode st coords).2
          = [Effect.alertUser "You are already in a session. Leave or close your current session to create a new one."]) ∧
      (∀ coords formData remote, st.newEventCoords = none →
        handleCreateSession (handleMapClickInCreateMode st coords).1 formData remote
          = ((handleMapClickInCreateMode st coords).1, [])) ∧
      (∀ sessionId remote,
        handleJoinSession st sessionId remote
          = (st, [Effect.alertUser "You're already in a session. Please leave it before joining another."])))) ∧
    (st.activeSession = none →
      (∀ coords,
        handleMapClickInCreateMode st coords
          = ({ st with newEventCoords := some coords, isCreateModalOpen := true }, [])) ∧
      (∀ coords formData row,
        (handleCreateSession (handleMapClickInCreateMode st coords).1 formData (Except.ok row)).2
          = [Effect.insertSession coords.1 coords.2 st.user.id [st.user.id]] ∧
        (handleCreateSession (handleMapClickInCreateMode st coords).1 formData (Except.ok row)).1.activeSession
          = some row) ∧
      (∀ sessionId s remote,
        st.sessions.find? (fun x => x.id == sessionId) = some s →
        (handleJoinSession st sessionId remote).2.head?
          = some (Effect.updateSessionParticipants sessionId
              (joinParticipants s.participants st.user.id)))) := by
  constructor
  · intro S hS
    refine ⟨?_, ?_, ?_⟩
    · intro coords
      simp [handleMapClickInCreateMode, hS]
    · intro coords formData remote hcoords
      simp [handleMapClickInCreateMode, hS, handleCreateSession, hcoords]
    · intro sessionId remote
      simp [handleJoinSession, hval, hS]
  · intro hnone
    refine ⟨?_, ?_, ?_⟩
    · intro coords
      simp [handleMapClickInCreateMode, hnone]
    · intro coords formData row
      simp [handleMapClickInCreateMode, hnone, handleCreateSession, hval]
    · intro sessionId s remote hfind
      cases remote <;> simp [handleJoinSession, hval, hnone, hfind]

/-- Witness for C2: join with an active reference held alerts and changes
nothing; join with no reference issues the appended-participants write. -/
theorem C2_witness :
    twoSessionState.sessionValid = true ∧
    handleJoinSession twoSessionState 2 (Except.ok otherSessionRow)
      = (twoSessionState,
         [Effect.alertUser "You're already in a session. Please leave it before joining another."]) ∧
    dupJoinState.sessionValid = true ∧
    (handleJoinSession dupJoinState 1 (Except.ok dupJoinedRow)).2.head?
      = some (Effect.updateSessionParticipants 1 (joinParticipants ["u1"] "u1")) := by
  refine ⟨by decide, ?_, by decide, ?_⟩
  · exact ((C2_already_in_session twoSessionState (by decide)).1 dupSessionRow
      (by decide)).2.2 2 (Except.ok otherSessionRow)
  · exact (C2_already_in_session dupJoinState (by decide)).2 (by decide) |>.2.2 1
      dupSessionRow (Except.ok dupJoinedRow) (by decide)

/-- Claim C5: close always issues the status=closed write for the given id;
on success it clears the active reference and hides chat exactly when the
closed id equals the active session's id, returning the state otherwise
unchanged; on a write failure the active reference, chat visibility, cached
sessions and messages are all unchanged. -/
theorem C5_close_session (st : ClientState) (sessionId : Nat)
    (hval : st.sessionValid = true) :
    (∀ remote, (handleCloseSession st sessionId remote).2.head?
        = some (Effect.updateSessionStatus sessionId SessionStatus.closed)) ∧
    (∀ s, st.activeSession = some s → s.id = sessionId →
      (handleCloseSession st sessionId none).1.activeSession = none ∧
      (handleCloseSession st sessionId none).1.isChatVisible = false) ∧
    ((∀ s, st.activeSession = some s → s.id ≠ sessionId) →
      (handleCloseSession st sessionId none).1 = st) ∧
    (∀ msg,
      (handleCloseSession st sessionId (some msg)).1.activeSession = st.activeSession ∧
      (handleCloseSession st sessionId (some msg)).1.isChatVisible = st.isChatVisible ∧
      (handleCloseSession st sessionId (some msg)).1.sessions = st.sessions ∧
      (handleCloseSession st sessionId (some msg)).1.chatMessages = st.chatMessages) := by
  refine ⟨?_, ?_, ?_, ?_⟩
  · intro remote
    unfold handleCloseSession applyRemoteError
    rw [hval]
    cases remote <;> simp
    · cases h : st.activeSession <;> simp
      split <;> simp
  · intro s hs hid
    simp [handleCloseSession, hval, hs, hid]
  · intro hne
    cases h : st.activeSession with
    | none => simp [handleCloseSession, hval, h]
    | some s => simp [handleCloseSession, hval, h, hne s h]
  · intro msg
    unfold handleCloseSession applyRemoteError
    rw [hval]
    split <;> simp
    split <;> simp

/-- Witness for C5 at concrete states: closing the active session clears the
reference and hides chat; a failed close leaves both untouched. -/
theorem C5_witness :
    twoSessionState.sessionValid = true ∧
    twoSessionState.activeSession = some dupSessionRow ∧
    dupSessionRow.id = 1 ∧
    (handleCloseSession twoSessionState 1 none).1.activeSession = none ∧
    (handleCloseSession twoSessionState 1 none).1.isChatVisible = false ∧
    (handleCloseSession twoSessionState 1 (some "boom")).1.activeSession
      = twoSessionState.activeSession := by
  have h := C5_close_session twoSessionState 1 (by decide)
  have h2 := h.2.1 dupSessionRow (by decide) (by decide)
  exact ⟨by decide, by decide, by decide, h2.1, h2.2, (h.2.2.2 "boom").1⟩

/-- Claim C8: extend is a no-op (no remote write, no state change) when the
id is absent from the locally-cached set; otherwise it writes exactly the
cached duration plus 15; and for every bound there is a state from which the
written duration exceeds that bound — no upper limit is enforced. -/
theorem C8_extend_session (st : ClientState) (sessionId : Nat)
    (hval : st.sessionValid = true) :
    (st.sessions.find? (fun s => s.id == sessionId) = none →
      ∀ remote, handleExtendSession st sessionId remote = (st, [])) ∧
    (∀ s, st.sessions.find? (fun s => s.id == sessionId) = some s →
      (handleExtendSession st sessionId none).2
        = [Effect.updateSessionDuration sessionId (s.duration + 15)]) ∧
    (∀ bound : Nat, ∃ st2 : ClientState, ∃ s : Session,
      st2.sessions.find? (fun x => x.id == sessionId) = some s ∧
      bound < s.duration + 15 ∧
      (handleExtendSession st2 sessionId none).2
        = [Effect.updateSessionDuration sessionId (s.duration + 15)]) := by
  refine ⟨?_, ?_, ?_⟩
  · intro hnone remote
    simp [handleExtendSession, hval, hnone]
  · intro s hfind
    simp [handleExtendSession, hval, hfind]
  · intro bound
    refine ⟨extendProbeState sessionId bound, extendProbeRow sessionId bound, ?_, ?_, ?_⟩
    · simp [extendProbeState, List.find?, extendProbeRow]
    · simp [extendProbeRow]
      omega
    · simp [handleExtendSession, extendProbeState, List.find?, extendProbeRow]

/-- Witness for C8: extending the cached session 1 (duration 30) writes 45;
extending the absent id 7 does nothing. -/
theorem C8_witness :
    dupJoinState.sessionValid = true ∧
    dupJoinState.sessions.find? (fun s => s.id == 1) = some dupSessionRow ∧
    (handleExtendSession dupJoinState 1 none).2
      = [Effect.updateSessionDuration 1 (dupSessionRow.duration + 15)] ∧
    dupJoinState.sessions.find? (fun s => s.id == 7) = none ∧
    handleExtendSession dupJoinState 7 none = (dupJoinState, []) := by
  refine ⟨by decide, by decide, ?_, by decide, ?_⟩
  · exact (C8_extend_session dupJoinState 1 (by decide)).2.1 dupSessionRow (by decide)
  · exact (C8_extend_session dupJoinState 7 (by decide)).1 (by decide) none

/-- Claim C10: a successful leave clears the active-session reference and
hides chat unconditionally — also when the left id differs from the active
session's id — whereas a successful close of a session whose id differs from
the active one leaves the reference and chat visibility unchanged. -/
theorem C10_leave_clears_unconditionally (st : ClientState) (S t : Session) (tid : Nat)
    (hval : st.sessionValid = true) (hact : st.activeSession = some S)
    (hfind : st.sessions.find? (fun x => x.id == tid) = some t) :
    ((handleLeaveSession st tid none).1.activeSession = none ∧
     (handleLeaveSession st tid none).1.isChatVisible = false ∧
     (handleLeaveSession st tid none).2
       = [Effect.updateSessionParticipants tid (leaveParticipants t.participants st.user.id)]) ∧
    (S.id ≠ tid →
      (handleCloseSession st tid none).1.activeSession = some S ∧
      (handleCloseSession st tid none).1.isChatVisible = st.isChatVisible) := by
  constructor
  · simp [handleLeaveSession, hval, hfind]
  · intro hne
    simp [handleCloseSession, hval, hact, hne]

/-- Witness for C10: with session 1 active, leaving session 2 clears the
reference and hides chat, while closing session 2 leaves both alone. -/
theorem C10_witness :
    twoSessionState.sessionValid = true ∧
    twoSessionState.activeSession = some dupSessionRow ∧
    twoSessionState.sessions.find? (fun x => x.id == 2) = some otherSessionRow ∧
    dupSessionRow.id ≠ 2 ∧
    (handleLeaveSession twoSessionState 2 none).1.activeSession = none ∧
    (handleLeaveSession twoSessionState 2 none).1.isChatVisible = false ∧
    (handleCloseSession twoSessionState 2 none).1.activeSession = some dupSessionRow := by
  have h := C10_leave_clears_unconditionally twoSessionState dupSessionRow otherSessionRow 2
    (by decide) (by decide) (by decide)
  exact ⟨by decide, by decide, by decide, by decide, h.1.1, h.1.2.1, (h.2 (by decide)).1⟩

/-- Claim C3: while an identity is held and the application becomes visible,
the mismatch condition is exactly "query errored, no session, or different
user id"; on mismatch exactly one forced-logout sequence runs (alert, remote
sign-out, both storages cleared, identity cleared); on a match nothing
changes; and the handler is a no-op when the document is not visible. -/
theorem C3_focus_revalidation (st : AuthState) (u : AuthUser)
    (hu : st.currentUser = some u) (remote : Except String (Option AuthUser))
    (signOutError : Option String) :
    (sessionMismatch remote u = true ↔
      (∃ e, remote = Except.error e) ∨ remote = Except.ok none ∨
        (∃ su, remote = Except.ok (some su) ∧ su.id ≠ u.id)) ∧
    (sessionMismatch remote u = true →
      (handleVisibilityChange st true remote signOutError).1.currentUser = none ∧
      (handleVisibilityChange st true remote signOutError).2
        = AuthEffect.alertUser "Your session has expired or is invalid. The application will now refresh. Please log in again."
            :: (handleLogout st signOutError).2) ∧
    (sessionMismatch remote u = false →
      handleVisibilityChange st true remote signOutError = (st, [])) ∧
    (∀ soErr : Option String,
      (handleLogout st soErr).2.count AuthEffect.signOut = 1 ∧
      (handleLogout st soErr).2.count AuthEffect.clearLocalStorage = 1 ∧
      (handleLogout st soErr).2.count AuthEffect.clearSessionStorage = 1 ∧
      (handleLogout st soErr).1.currentUser = none) ∧
    handleVisibilityChange st false remote signOutError = (st, []) := by
  refine ⟨?_, ?_, ?_, ?_, ?_⟩
  · rcases remote with e | s
    · simp [sessionMismatch]
    · rcases s with _ | su
      · simp [sessionMismatch]
      · simp [sessionMismatch, bne_iff_ne]
  · intro h
    constructor
    · cases signOutError <;> simp [handleVisibilityChange, hu, h, handleLogout]
    · simp [handleVisibilityChange, hu, h]
  · intro h
    simp [handleVisibilityChange, hu, h]
  · intro soErr
    cases soErr <;> simp [handleLogout, List.count_cons]
  · simp [handleVisibilityChange]

/-- Witness for C3: held identity u1, revalidation returning u2 — the forced
logout runs and the identity ends absent. -/
theorem C3_witness :
    mismatchAuthState.currentUser = some { id := "u1" } ∧
    sessionMismatch (Except.ok (some { id := "u2" })) { id := "u1" } = true ∧
    (handleVisibilityChange mismatchAuthState true
        (Except.ok (some { id := "u2" })) none).1.currentUser = none ∧
    (handleVisibilityChange mismatchAuthState true
        (Except.ok (some { id := "u2" })) none).2
      = AuthEffect.alertUser "Your session has expired or is invalid. The application will now refresh. Please log in again."
          :: (handleLogout mismatchAuthState none).2 := by
  have h := (C3_focus_revalidation mismatchAuthState { id := "u1" } (by decide)
    (Except.ok (some { id := "u2" })) none).2.1 (by decide)
  exact ⟨by decide, by decide, h.1, h.2⟩

/-- Claim C4: a remote failure whose text matches the code's auth classifier
(substrings "JWT" or "session") sets the "Session expired" banner and
schedules the forced logout after exactly 2000 ms, at every call site routed
through the shared error block; any other failure sets at most the call
site's fallback banner, schedules no logout, and issues no further effect
(the operation is abandoned, not retried). -/
theorem C4_error_classification (st : ClientState) (msg : String)
    (hval : st.sessionValid = true) :
    (isAuthError msg = true →
      (∀ fallback, applyRemoteError st msg fallback
        = ({ st with errorBanner := some "Session expired. Please log in again." },
           [Effect.scheduleLogoutMs 2000])) ∧
      fetchSessions st (Except.error msg)
        = ({ st with errorBanner := some "Session expired. Please log in again." },
           [Effect.scheduleLogoutMs 2000])) ∧
    (isAuthError msg = false →
      applyRemoteError st msg none = (st, []) ∧
      (∀ fb, applyRemoteError st msg (some fb) = ({ st with errorBanner := some fb }, [])) ∧
      fetchSessions st (Except.error msg)
        = ({ st with errorBanner := some "Failed to load sessions. Please refresh the page." },
           [])) ∧
    (∀ coords formData, st.newEventCoords = some coords →
      handleCreateSession st formData (Except.error msg)
        = ((applyRemoteError st msg (some "Failed to create session. Please try again.")).1,
           Effect.insertSession coords.1 coords.2 st.user.id [st.user.id]
             :: (applyRemoteError st msg (some "Failed to create session. Please try again.")).2)) ∧
    (∀ sessionId s, st.activeSession = none →
      st.sessions.find? (fun x => x.id == sessionId) = some s →
      handleJoinSession st sessionId (Except.error msg)
        = ((applyRemoteError st msg none).1,
           Effect.updateSessionParticipants sessionId
               (joinParticipants s.participants st.user.id)
             :: (applyRemoteError st msg none).2)) := by
  refine ⟨?_, ?_, ?_, ?_⟩
  · intro h
    constructor
    · intro fallback
      simp [applyRemoteError, h]
    · simp [fetchSessions, hval, applyRemoteError, h]
  · intro h
    refine ⟨by simp [applyRemoteError, h], ?_, ?_⟩
    · intro fb
      simp [applyRemoteError, h]
    · simp [fetchSessions, hval, applyRemoteError, h]
  · intro coords formData hc
    simp [handleCreateSession, hc, hval]
  · intro sessionId s hnone hfind
    simp [handleJoinSession, hval, hnone, hfind]

/-- Witness for C4 at concrete failure texts: "JWT expired" triggers the
banner plus the 2-second logout; "network down" only sets the fallback
banner. -/
theorem C4_witness :
    dupJoinState.sessionValid = true ∧
    isAuthError "JWT expired" = true ∧
    fetchSessions dupJoinState (Except.error "JWT expired")
      = ({ dupJoinState with errorBanner := some "Session expired. Please log in again." },
         [Effect.scheduleLogoutMs 2000]) ∧
    isAuthError "network down" = false ∧
    fetchSessions dupJoinState (Except.error "network down")
      = ({ dupJoinState with errorBanner := some "Failed to load sessions. Please refresh the page." },
         []) := by
  refine ⟨by decide, by decide, ?_, by decide, ?_⟩
  · exact ((C4_error_classification dupJoinState "JWT expired" (by decide)).1 (by decide)).2
  · exact ((C4_error_classification dupJoinState "network down" (by decide)).2.1
      (by decide)).2.2

theorem guardStep_inv (st : GuardState) (e : GuardEvent) (h : GuardInv st) :
    GuardInv (guardStep st e).1 := by
  cases e with
  | loadComplete =>
      rcases h with h0 | h1
      · exact Or.inl h0
      · exact Or.inr ⟨h1.1, rfl⟩
  | elapseMs =>
      cases ht : st.timer with
      | none =>
          simp only [guardStep, ht]
          exact h
      | some n =>
          rcases h with h0 | h1
          · by_cases hn : n ≤ 1
            · simp only [guardStep, ht, if_pos hn]
              exact Or.inr ⟨by simp [h0], rfl⟩
            · simp only [guardStep, ht, if_neg hn]
              exact Or.inl h0
          · rw [h1.2] at ht
            cases ht

theorem guardRun_inv (evs : List GuardEvent) :
    ∀ st : GuardState, GuardInv st → GuardInv (guardRun st evs).1 := by
  induction evs with
  | nil =>
      intro st h
      exact h
  | cons e es ih =>
      intro st h
      exact ih _ (guardStep_inv st e h)

theorem guardRun_timer_none (evs : List GuardEvent) :
    ∀ st : GuardState, st.timer = none →
    (guardRun st evs).1.fired = st.fired ∧ (guardRun st evs).1.timer = none := by
  induction evs with
  | nil =>
      intro st h
      exact ⟨rfl, h⟩
  | cons e es ih =>
      intro st h
      cases e with
      | loadComplete =>
          have hrec := ih { st with loading := false, timer := none } rfl
          simpa [guardRun, guardStep] using hrec
      | elapseMs =>
          have hstep : guardStep st GuardEvent.elapseMs = (st, []) := by
            simp [guardStep, h]
          have hrec := ih st h
          simpa [guardRun, hstep] using hrec

theorem guardRun_fst_append (st : GuardState) (l1 l2 : List GuardEvent) :
    (guardRun st (l1 ++ l2)).1 = (guardRun (guardRun st l1).1 l2).1 := by
  induction l1 generalizing st with
  | nil => rfl
  | cons e es ih => simpa [guardRun] using ih (guardStep st e).1

theorem guardRun_few_elapses (evs : List GuardEvent) :
    ∀ (st : GuardState) (n : Nat), st.timer = some n → st.fired = 0 →
    List.count GuardEvent.elapseMs evs < n →
    (guardRun st evs).1.fired = 0 := by
  induction evs with
  | nil =>
      intro st n _ h0 _
      exact h0
  | cons e es ih =>
      intro st n ht h0 hcount
      cases e with
      | loadComplete =>
          have hrec := guardRun_timer_none es
            { st with loading := false, timer := none } rfl
          have : (guardRun { st with loading := false, timer := none } es).1.fired = st.fired :=
            hrec.1
          simpa [guardRun, guardStep, h0] using this
      | elapseMs =>
          rw [List.count_cons_self] at hcount
          have hn : ¬ n ≤ 1 := by omega
          have hstep : guardStep st GuardEvent.elapseMs
              = ({ st with timer := some (n - 1) }, []) := by
            simp [guardStep, ht, if_neg hn]
          have hrec := ih { st with timer := some (n - 1) } (n - 1) rfl h0 (by omega)
          simpa [guardRun, hstep] using hrec

theorem guardRun_elapse_inert (k : Nat) :
    ∀ (st : GuardState), st.timer = none →
    guardRun st (List.replicate k GuardEvent.elapseMs) = (st, []) := by
  induction k with
  | zero =>
      intro st _
      rfl
  | succ k ih =>
      intro st h
      have hstep : guardStep st GuardEvent.elapseMs = (st, []) := by
        simp [guardStep, h]
      simp [List.replicate_succ, guardRun, hstep, ih st h]

theorem guardRun_replicate_fires (k : Nat) :
    ∀ (st : GuardState) (n : Nat), st.timer = some n → 1 ≤ n → n ≤ k →
    guardRun st (List.replicate k GuardEvent.elapseMs)
      = ({ st with timer := none, fired := st.fired + 1 }, guardFireEffects) := by
  induction k with
  | zero =>
      intro st n _ h1 hk
      omega
  | succ k ih =>
      intro st n ht h1 hk
      by_cases hn : n ≤ 1
      · have hstep : guardStep st GuardEvent.elapseMs
            = ({ st with timer := none, fired := st.fired + 1 }, guardFireEffects) := by
          simp [guardStep, ht, if_pos hn]
        have hrest := guardRun_elapse_inert k
          ({ st with timer := none, fired := st.fired + 1 }) rfl
        simp [List.replicate_succ, guardRun, hstep, hrest]
      · have hstep : guardStep st GuardEvent.elapseMs
            = ({ st with timer := some (n - 1) }, []) := by
          simp [guardStep, ht, if_neg hn]
        have hrec := ih { st with timer := some (n - 1) } (n - 1) rfl (by omega) (by omega)
        simp [List.replicate_succ, guardRun, hstep, hrec]

/-- Claim C9: in every run of the deadlock guard from its armed initial state
the storage-clear-and-reload fires at most once; if initialization completes
before 10000 elapsed milliseconds the guard is cancelled and never fires in
any continuation; and if 10000 milliseconds elapse with no completion it
fires exactly once, emitting exactly the alert, both storage clears and the
reload. -/
theorem C9_deadlock_guard :
    (∀ evs : List GuardEvent, (guardRun guardInit evs).1.fired ≤ 1) ∧
    (∀ pre post : List GuardEvent,
      List.count GuardEvent.elapseMs pre < 10000 →
      (guardRun guardInit (pre ++ GuardEvent.loadComplete :: post)).1.fired = 0) ∧
    (∀ k : Nat, 10000 ≤ k →
      (guardRun guardInit (List.replicate k GuardEvent.elapseMs)).1.fired = 1 ∧
      (guardRun guardInit (List.replicate k GuardEvent.elapseMs)).2 = guardFireEffects) := by
  refine ⟨?_, ?_, ?_⟩
  · intro evs
    have h := guardRun_inv evs guardInit (Or.inl rfl)
    rcases h with h0 | h1
    · omega
    · omega
  · intro pre post hcount
    rw [guardRun_fst_append]
    have h1 : (guardRun guardInit pre).1.fired = 0 :=
      guardRun_few_elapses pre guardInit 10000 rfl rfl hcount
    have h2 := guardRun_timer_none post
      { (guardRun guardInit pre).1 with loading := false, timer := none } rfl
    simpa [guardRun, guardStep, h1] using h2.1
  · intro k hk
    have h := guardRun_replicate_fires k guardInit 10000 rfl (by omega) hk
    rw [h]
    exact ⟨rfl, rfl⟩

/-- Witness for C9: completing after one millisecond cancels the guard; ten
thousand uninterrupted milliseconds fire it exactly once. -/
theorem C9_witness :
    List.count GuardEvent.elapseMs [GuardEvent.elapseMs] < 10000 ∧
    (guardRun guardInit
        ([GuardEvent.elapseMs] ++ GuardEvent.loadComplete :: [])).1.fired = 0 ∧
    10000 ≤ 10000 ∧
    (guardRun guardInit (List.replicate 10000 GuardEvent.elapseMs)).1.fired = 1 := by
  refine ⟨by decide, ?_, by decide, ?_⟩
  · exact C9_deadlock_guard.2.1 [GuardEvent.elapseMs] [] (by decide)
  · exact (C9_deadlock_guard.2.2 10000 (by omega)).1

end VibeX
